import Mathlib

/-!
Verification of the retrieval/normalization pipeline of `src/eda/eda2.py`
(OpenAlex bulk crawl: bounded-retry HTTP requests, cursor-paginated crawl
loop, record normalization into a flat row schema, and the final sorted
table), together with a spec-modelled grouped-mode crawl.

Python dictionaries with optional keys are embedded as structures with
`Option` fields; `d.get(k, default)` becomes `Option.getD`; machine side
effects (HTTP, sleeping) are made explicit: the simulated endpoint is a
function from attempt index to response, and the sleeps performed are
accumulated in the result.
-/

namespace Eda2

/-- The maximum attempt count of the retry loop (`MAX_RETRIES = 3`). -/
def MAX_RETRIES : Nat := 3

/-- One nested concept of a raw work: `{id, display_name}`, any key may be
absent. -/
structure Concept where
  id : Option String
  display_name : Option String
deriving Repr, DecidableEq

/-- The nested `author` object of an authorship. -/
structure Author where
  display_name : Option String
deriving Repr, DecidableEq

/-- One institution of an authorship. -/
structure Institution where
  display_name : Option String
deriving Repr, DecidableEq

/-- One authorship of a raw work: nested `author` and `institutions`. -/
structure Authorship where
  author : Option Author
  institutions : Option (List Institution)
deriving Repr, DecidableEq

/-- One raw bibliographic work as returned by the API (a `RawRecord`):
every key may be absent. -/
structure RawWork where
  title : Option String
  publication_date : Option String
  cited_by_count : Option Nat
  concepts : Option (List Concept)
  authorships : Option (List Authorship)
deriving Repr, DecidableEq

/-- The `meta` object of an itemized API response. -/
structure Meta where
  count : Option Nat
  next_cursor : Option String
deriving Repr, DecidableEq

/-- The JSON body of one successful itemized API response
(`{results, meta}`, either key may be absent). -/
structure ApiData where
  results : Option (List RawWork)
  meta : Option Meta
deriving Repr, DecidableEq

/-- What the simulated server answers to one HTTP GET: a 2xx JSON body, an
HTTP error with a status code, or a connection-level error
(`requests.exceptions.RequestException`). -/
inductive HttpResponse where
  | ok (body : ApiData)
  | httpError (status : Nat)
  | connError
deriving Repr, DecidableEq

/-- Result of `make_api_request`: the returned value (`none` is the fatal
sentinel), the number of HTTP requests actually issued, and the list of
backoff sleeps performed, in order, in seconds. -/
structure RequestResult where
  result : Option ApiData
  attempts : Nat
  sleeps : List Nat
deriving Repr, DecidableEq

/-- The retry loop of `make_api_request` (eda2.py lines 25-53), unrolled
from attempt index `attempt` with `remaining` iterations left.
`responses i` is what the server answers to the request of attempt `i`.
Branches, in source order: 2xx returns the JSON; HTTP 429 sleeps
`2 ^ attempt` seconds and retries; HTTP 403 returns the fatal sentinel at
once; any other HTTP error sleeps 1 second and retries while
`attempt < MAX_RETRIES - 1`, else is fatal; a connection error sleeps 2
seconds and retries while `attempt < MAX_RETRIES - 1`, else is fatal.
When the `for` loop exhausts its range the function returns `None`. -/
def makeApiRequestFrom (responses : Nat → HttpResponse) :
    Nat → Nat → List Nat → RequestResult
  | 0, attempt, slept => ⟨none, attempt, slept⟩
  | remaining + 1, attempt, slept =>
    match responses attempt with
    | .ok body => ⟨some body, attempt + 1, slept⟩
    | .httpError status =>
      if status = 429 then
        makeApiRequestFrom responses remaining (attempt + 1)
          (slept ++ [2 ^ attempt])
      else if status = 403 then
        ⟨none, attempt + 1, slept⟩
      else if attempt < MAX_RETRIES - 1 then
        makeApiRequestFrom responses remaining (attempt + 1) (slept ++ [1])
      else
        ⟨none, attempt + 1, slept⟩
    | .connError =>
      if attempt < MAX_RETRIES - 1 then
        makeApiRequestFrom responses remaining (attempt + 1) (slept ++ [2])
      else
        ⟨none, attempt + 1, slept⟩

/-- `make_api_request(url, params)`: run the retry loop over
`range(MAX_RETRIES)` starting at attempt 0 with no sleeps performed. -/
def make_api_request (responses : Nat → HttpResponse) : RequestResult :=
  makeApiRequestFrom responses MAX_RETRIES 0 []

/-- Python truthiness of the `next_cursor` value guarding
`while next_cursor:` — `None` and the empty string are falsy. -/
def cursorTruthy : Option String → Bool
  | none => false
  | some s => s ≠ ""

/-- Outcome of the cursor crawl: either the accumulated works (success) or
the fatal sentinel (`return None`), each with the number of page requests
issued (`page_count`). -/
inductive CrawlOutcome where
  | success (works : List RawWork) (pages : Nat)
  | fatal (pages : Nat)
deriving Repr, DecidableEq

/-- Number of page requests issued by a crawl outcome. -/
def CrawlOutcome.pagesOf : CrawlOutcome → Nat
  | .success _ p => p
  | .fatal p => p

/-- The `while next_cursor:` loop of `fetch_all_works_data` (eda2.py lines
82-112). `server c` is the attempt-indexed response behavior of the
endpoint when queried with cursor `c`. Each iteration issues one
`make_api_request`; a fatal sentinel aborts the whole fetch; otherwise
`results` (default `[]`) is appended to the accumulator and the loop
advances to `meta.next_cursor` (with `meta` defaulting to the empty dict).
`fuel` bounds the recursion of this embedding only: `none` means the loop
had not terminated within `fuel` iterations. -/
def fetchLoop (server : String → Nat → HttpResponse) :
    Nat → Option String → List RawWork → Nat → Option CrawlOutcome
  | 0, _, _, _ => none
  | fuel + 1, cursor, acc, pages =>
    if cursorTruthy cursor then
      match (make_api_request (server (cursor.getD ""))).result with
      | none => some (.fatal (pages + 1))
      | some data =>
        fetchLoop server fuel (data.meta.getD ⟨none, none⟩).next_cursor
          (acc ++ data.results.getD []) (pages + 1)
    else
      some (.success acc pages)

/-- `fetch_all_works_data()`: cursor crawl starting from the sentinel
cursor `"*"` with an empty accumulator. -/
def fetch_all_works_data (server : String → Nat → HttpResponse)
    (fuel : Nat) : Option CrawlOutcome :=
  fetchLoop server fuel (some "*") [] 0

/-- Python `str.split(sep)` for a one-character separator, on the
character list of the string: always returns a non-empty list of
segments. -/
def splitOnChar (c : Char) : List Char → List (List Char)
  | [] => [[]]
  | x :: xs =>
    if x = c then
      [] :: splitOnChar c xs
    else
      match splitOnChar c xs with
      | [] => [[x]]
      | seg :: segs => (x :: seg) :: segs

/-- The last `c`-separated segment of a character list
(Python `l.split(c)[-1]`; `split` never returns an empty list, so the
default of `getLastD` is never used). -/
def stripSegs (c : Char) (l : List Char) : List Char :=
  (splitOnChar c l).getLastD []

/-- `s.split('/')[-1]` on strings: keep the final `/`-separated path
segment (eda2.py line 137). -/
def stripUrl (s : String) : String :=
  ⟨stripSegs '/' s.data⟩

/-- One flat output record of the normalizer (a `NormalizedRow`), with the
column names of the produced row dict. -/
structure NormalizedRow where
  Concept_ID : String
  Concept_Name : String
  Work_Title : String
  Primary_Author : String
  Affiliation_Institution : String
  Citation_Count : Nat
  Publication_Date : String
deriving Repr, DecidableEq

/-- The body of the `for work in raw_works` loop of
`process_and_structure_data` (eda2.py lines 119-144): first concept with
the default dict `{display_name: N/A, id: N/A}` when `concepts` is empty,
first authorship with the default empty dict, nested author display name
and first institution display name each defaulting to `"N/A"`, URL prefix
stripped from the concept id, and pass-through fields with defaults
`"N/A"` / `0`. -/
def processWork (work : RawWork) : NormalizedRow :=
  let concepts := work.concepts.getD []
  let top_concept := concepts.headD ⟨some "N/A", some "N/A"⟩
  let authorships := work.authorships.getD []
  let first_authorship := authorships.headD ⟨none, none⟩
  let author_name := ((first_authorship.author.getD ⟨none⟩).display_name).getD "N/A"
  let institutions := first_authorship.institutions.getD []
  let institution_name :=
    match institutions with
    | [] => "N/A"
    | inst :: _ => inst.display_name.getD "N/A"
  { Concept_ID := stripUrl (top_concept.id.getD "N/A")
    Concept_Name := top_concept.display_name.getD "N/A"
    Work_Title := work.title.getD "N/A"
    Primary_Author := author_name
    Affiliation_Institution := institution_name
    Citation_Count := work.cited_by_count.getD 0
    Publication_Date := work.publication_date.getD "N/A" }

/-- `process_and_structure_data(raw_works)`: normalize every raw work, in
order. -/
def process_and_structure_data (raw_works : List RawWork) :
    List NormalizedRow :=
  raw_works.map processWork

/-- All-digit character list to its decimal value, `none` on any
non-digit. -/
def digitsToNatAux : List Char → Nat → Option Nat
  | [], acc => some acc
  | c :: cs, acc =>
    if c.isDigit then digitsToNatAux cs (acc * 10 + (c.toNat - 48)) else none

/-- Non-empty all-digit string to its decimal value, else `none`. -/
def digitsToNat (s : String) : Option Nat :=
  match s.data with
  | [] => none
  | _ => digitsToNatAux s.data 0

/-- Models `pd.to_datetime(s, errors='coerce')` on the date strings this
pipeline sees: an ISO `YYYY-MM-DD` string becomes the sortable key
`y * 10000 + m * 100 + d`; any other shape coerces to `none` (`NaT`). -/
def toDatetimeKey (s : String) : Option Nat :=
  match s.splitOn "-" with
  | [y, m, d] =>
    match digitsToNat y, digitsToNat m, digitsToNat d with
    | some yn, some mn, some dn =>
      if 1 ≤ mn ∧ mn ≤ 12 ∧ 1 ≤ dn ∧ dn ≤ 31 then
        some (yn * 10000 + mn * 100 + dn)
      else none
    | _, _, _ => none
  | _ => none

/-- The sort key order of `main` (eda2.py lines 167-168):
`sort_values(by=['Publication_Date', 'Citation_Count'],
ascending=[False, False])` after coercing `Publication_Date` with
`errors='coerce'` — dates descending with unparseable dates (`NaT`) last,
ties broken by citation count descending. -/
def rowLE (a b : NormalizedRow) : Bool :=
  match toDatetimeKey a.Publication_Date, toDatetimeKey b.Publication_Date with
  | some x, some y =>
    if x = y then b.Citation_Count ≤ a.Citation_Count else y < x
  | some _, none => true
  | none, some _ => false
  | none, none => b.Citation_Count ≤ a.Citation_Count

/-- The sorted `ResultTable` built by `main` before writing the CSV. -/
def sortTable (rows : List NormalizedRow) : List NormalizedRow :=
  rows.mergeSort rowLE

/-- Observable outcome of one run of `main`: the file contents written to
`OUTPUT_FILENAME` (or `none` when no file is written) and the process exit
status. -/
structure RunResult where
  written : Option (List NormalizedRow)
  exitCode : Nat
deriving Repr, DecidableEq

/-- `main()` (eda2.py lines 148-184): fetch all raw works; on the fatal
sentinel exit with status 1 writing nothing; on a truthy (non-empty)
result normalize, sort and write the table, exiting normally; on an empty
result print a message and exit normally without writing any file.
`none` when the crawl loop outran the embedding fuel. -/
def main (server : String → Nat → HttpResponse) (fuel : Nat) :
    Option RunResult :=
  match fetch_all_works_data server fuel with
  | none => none
  | some (.fatal _) => some ⟨none, 1⟩
  | some (.success works _) =>
    if works.isEmpty then some ⟨none, 0⟩
    else some ⟨some (sortTable (process_and_structure_data works)), 0⟩

/-- One entry of a grouped-aggregation response
(`{key, key_display_name, count}`). -/
structure GroupEntry where
  key : Option String
  key_display_name : Option String
  count : Option Nat
deriving Repr, DecidableEq

/-- Modelled from the spec: the grouped-aggregation `RawPage` shape
(`{group_by: [...], meta: {count}}`); the grouped-mode retrieval script is
not under src/, only its cursor-mode sibling is. A malformed 2xx page is
one whose `group_by` key is absent. -/
structure GroupedPage where
  group_by : Option (List GroupEntry)
deriving Repr, DecidableEq

/-- One grouped-mode normalized row `{year, concept_id, concept_name,
work_count}`. -/
structure GroupedRow where
  year : Nat
  concept_id : String
  concept_name : String
  work_count : Nat
deriving Repr, DecidableEq

/-- Modelled from the spec: `normalize_grouped(RawPage, context)` — for
each group-count entry emit one row combining the context year with the
group's key, display label (default "N/A" if absent) and count
(default 0); a page with no `group_by` key yields no rows. -/
def normalize_grouped (year : Nat) (page : GroupedPage) : List GroupedRow :=
  (page.group_by.getD []).map fun g =>
    ⟨year, g.key.getD "N/A", g.key_display_name.getD "N/A", g.count.getD 0⟩

/-- Modelled from the spec: the grouped-mode `crawl` over the partitions
of the query plan — one grouped query per partition (`server y`, with
`none` the fatal sentinel); a fatal error aborts the whole crawl, keeping
the partitions already accumulated but flagging the run failed (`true`);
a malformed page contributes no rows and the crawl continues. -/
def crawlGrouped (server : Nat → Option GroupedPage) :
    List Nat → List GroupedRow → List GroupedRow × Bool
  | [], acc => (acc, false)
  | y :: ys, acc =>
    match server y with
    | none => (acc, true)
    | some page => crawlGrouped server ys (acc ++ normalize_grouped y page)

/-- The outcome dichotomy claimed by the spec's propagation policy (for
the refinement claim about `main`): either a table is written and the
process exits 0, or nothing is written and the exit status is
non-zero. -/
def ClaimedDichotomy (r : RunResult) : Prop :=
  ((∃ rows, r.written = some rows) ∧ r.exitCode = 0) ∨
    (r.written = none ∧ r.exitCode ≠ 0)

/-- A server whose one page is a 2xx body with an empty result list and no
`meta` key. -/
def emptyResultsServer : String → Nat → HttpResponse :=
  fun _ _ => .ok ⟨some [], none⟩

/-- A server whose one page carries one record and no `meta` key. -/
def singlePageServer : String → Nat → HttpResponse :=
  fun _ _ => .ok ⟨some [⟨some "T", some "2021-01-01", some 3, none, none⟩], none⟩

theorem splitOnChar_ne_nil (c : Char) (l : List Char) :
    splitOnChar c l ≠ [] := by
  cases l with
  | nil => simp [splitOnChar]
  | cons x xs =>
    simp only [splitOnChar]
    split
    · simp
    · split <;> simp

theorem getLastD_cons_of_ne_nil {α : Type} (x : α) (l : List α) (d : α)
    (h : l ≠ []) : (x :: l).getLastD d = l.getLastD d := by
  cases l with
  | nil => exact absurd rfl h
  | cons y t => rfl

theorem not_mem_stripSegs (c : Char) (l : List Char) :
    c ∉ stripSegs c l := by
  induction l with
  | nil => simp [stripSegs, splitOnChar]
  | cons x xs ih =>
    simp only [stripSegs] at *
    by_cases hx : x = c
    · rw [show splitOnChar c (x :: xs) = [] :: splitOnChar c xs by
        simp [splitOnChar, hx]]
      rwa [getLastD_cons_of_ne_nil _ _ _ (splitOnChar_ne_nil c xs)]
    · rcases hsp : splitOnChar c xs with _ | ⟨seg, segs⟩
      · exact absurd hsp (splitOnChar_ne_nil c xs)
      · rw [show splitOnChar c (x :: xs) = (x :: seg) :: segs by
          simp [splitOnChar, hx, hsp]]
        rcases segs with _ | ⟨s2, rest⟩
        · rw [hsp] at ih
          simp only [List.getLastD, List.getLast] at ih ⊢
          intro hmem
          rcases List.mem_cons.mp hmem with h | h
          · exact hx h.symm
          · exact ih (by simpa using h)
        · rw [hsp] at ih
          rw [getLastD_cons_of_ne_nil _ _ _ (by simp)]
          rwa [getLastD_cons_of_ne_nil _ _ _ (by simp)] at ih

theorem splitOnChar_of_not_mem (c : Char) (l : List Char) (h : c ∉ l) :
    splitOnChar c l = [l] := by
  induction l with
  | nil => simp [splitOnChar]
  | cons x xs ih =>
    simp only [List.mem_cons, not_or] at h
    obtain ⟨h1, h2⟩ := h
    rw [splitOnChar, if_neg (fun hx => h1 hx.symm), ih h2]

theorem stripSegs_idem (c : Char) (l : List Char) :
    stripSegs c (stripSegs c l) = stripSegs c l := by
  have hnm := not_mem_stripSegs c l
  unfold stripSegs
  rw [show splitOnChar c ((splitOnChar c l).getLastD []) = _ from
    splitOnChar_of_not_mem c _ hnm]
  simp

theorem stripUrl_idem (s : String) : stripUrl (stripUrl s) = stripUrl s := by
  unfold stripUrl
  exact congrArg String.mk (stripSegs_idem '/' s.data)

theorem rowLE_total (a b : NormalizedRow) :
    (rowLE a b || rowLE b a) = true := by
  unfold rowLE
  generalize toDatetimeKey a.Publication_Date = ka
  generalize toDatetimeKey b.Publication_Date = kb
  rcases ka with _ | x <;> rcases kb with _ | y <;> simp <;>
    (try split_ifs) <;> omega

theorem rowLE_trans (a b c : NormalizedRow) (hab : rowLE a b = true)
    (hbc : rowLE b c = true) : rowLE a c = true := by
  unfold rowLE at *
  generalize toDatetimeKey a.Publication_Date = ka at *
  generalize toDatetimeKey b.Publication_Date = kb at *
  generalize toDatetimeKey c.Publication_Date = kc at *
  rcases ka with _ | x <;> rcases kb with _ | y <;> rcases kc with _ | z <;>
    simp_all <;> (try split_ifs at * ) <;> (try simp_all) <;> omega

/-- C2: against an endpoint answering HTTP 429 on attempts 0 and 1 and
succeeding on attempt 2, `make_api_request` returns the successful
payload, issues exactly 3 requests, and the backoff sleeps performed are
`2 ^ 0` then `2 ^ 1` seconds (the sleep of retry iteration `i` being
`2 ^ i`), summing to `2 ^ 0 + 2 ^ 1` seconds. -/
theorem make_api_request_429_backoff (responses : Nat → HttpResponse)
    (payload : ApiData) (h0 : responses 0 = .httpError 429)
    (h1 : responses 1 = .httpError 429) (h2 : responses 2 = .ok payload) :
    make_api_request responses = ⟨some payload, 3, [2 ^ 0, 2 ^ 1]⟩ ∧
    (make_api_request responses).sleeps.sum = 2 ^ 0 + 2 ^ 1 := by
  have hrun : make_api_request responses = ⟨some payload, 3, [2 ^ 0, 2 ^ 1]⟩ := by
    simp [make_api_request, MAX_RETRIES, makeApiRequestFrom, h0, h1, h2]
  exact ⟨hrun, by rw [hrun]; simp⟩

theorem make_api_request_429_backoff_witness :
    make_api_request (fun i => if i < 2 then .httpError 429 else .ok ⟨none, none⟩) =
      ⟨some ⟨none, none⟩, 3, [2 ^ 0, 2 ^ 1]⟩ :=
  (make_api_request_429_backoff _ ⟨none, none⟩ rfl rfl rfl).1

/-- C3: against an endpoint answering HTTP 403 on the first attempt,
`make_api_request` returns the fatal sentinel `none` after exactly 1
request with no backoff sleep; and the retry loop aborts the same way
from attempt 0 regardless of how many iterations remain in the budget. -/
theorem make_api_request_403_fatal (responses : Nat → HttpResponse)
    (h : responses 0 = .httpError 403) :
    make_api_request responses = ⟨none, 1, []⟩ ∧
    ∀ remaining slept, makeApiRequestFrom responses (remaining + 1) 0 slept =
      ⟨none, 1, slept⟩ := by
  constructor
  · simp [make_api_request, MAX_RETRIES, makeApiRequestFrom, h]
  · intro remaining slept
    simp [makeApiRequestFrom, h]

theorem make_api_request_403_fatal_witness :
    make_api_request (fun _ => .httpError 403) = ⟨none, 1, []⟩ :=
  (make_api_request_403_fatal (fun _ => .httpError 403) rfl).1

/-- C9 (spec-modelled): a grouped-mode crawl over partitions
`[2021, 2022]` whose 2022 fetch is fatal keeps every normalized row of
partition 2021 in the accumulator and flags the overall run failed. -/
theorem crawl_grouped_partial_failure (server : Nat → Option GroupedPage)
    (page : GroupedPage) (h1 : server 2021 = some page)
    (h2 : server 2022 = none) :
    crawlGrouped server [2021, 2022] [] = (normalize_grouped 2021 page, true) := by
  simp [crawlGrouped, h1, h2]

theorem crawl_grouped_partial_failure_witness :
    crawlGrouped
      (fun y => if y = 2021 then some ⟨some [⟨some "T1", some "Topic", some 4⟩]⟩ else none)
      [2021, 2022] [] =
    (normalize_grouped 2021 ⟨some [⟨some "T1", some "Topic", some 4⟩]⟩, true) :=
  crawl_grouped_partial_failure _ _ rfl rfl

theorem make_api_request_ok0 (responses : Nat → HttpResponse)
    (body : ApiData) (h : responses 0 = .ok body) :
    make_api_request responses = ⟨some body, 1, []⟩ := by
  simp [make_api_request, MAX_RETRIES, makeApiRequestFrom, h]

theorem fetchLoop_stop (server : String → Nat → HttpResponse) (fuel : Nat)
    (cursor : Option String) (acc : List RawWork) (pages : Nat)
    (hfalse : cursorTruthy cursor = false) :
    fetchLoop server (fuel + 1) cursor acc pages =
      some (.success acc pages) := by
  rw [fetchLoop]
  simp [hfalse]

theorem fetchLoop_step_ok (server : String → Nat → HttpResponse)
    (fuel : Nat) (cursor : Option String) (acc : List RawWork) (pages : Nat)
    (data : ApiData) (htrue : cursorTruthy cursor = true)
    (hresp : server (cursor.getD "") 0 = .ok data) :
    fetchLoop server (fuel + 1) cursor acc pages =
      fetchLoop server fuel (data.meta.getD ⟨none, none⟩).next_cursor
        (acc ++ data.results.getD []) (pages + 1) := by
  rw [fetchLoop]
  simp only [htrue, if_true, make_api_request_ok0 _ _ hresp]

/-- C1: against a server whose pages carry continuation tokens
`"*" ↦ "tok1" ↦ "tok2" ↦ none`, the cursor crawl issues exactly 3 page
requests and returns the concatenation of the 3 pages' records in order,
never requesting a 4th page; and in general one loop iteration stops
exactly when the cursor is empty or absent — a falsy cursor returns the
accumulator at once, while a truthy cursor issues one request and
continues from `meta.next_cursor`. -/
theorem fetch_all_works_three_pages (server : String → Nat → HttpResponse)
    (r1 r2 r3 : List RawWork) (n1 n2 n3 : Option Nat) (fuel : Nat)
    (h1 : server "*" 0 = .ok ⟨some r1, some ⟨n1, some "tok1"⟩⟩)
    (h2 : server "tok1" 0 = .ok ⟨some r2, some ⟨n2, some "tok2"⟩⟩)
    (h3 : server "tok2" 0 = .ok ⟨some r3, some ⟨n3, none⟩⟩) :
    fetch_all_works_data server (fuel + 4) =
      some (.success (r1 ++ r2 ++ r3) 3) ∧
    (∀ cursor acc pages, cursorTruthy cursor = false →
      fetchLoop server (fuel + 1) cursor acc pages =
        some (.success acc pages)) ∧
    (∀ cursor acc pages data, cursorTruthy cursor = true →
      server (cursor.getD "") 0 = .ok data →
      fetchLoop server (fuel + 1) cursor acc pages =
        fetchLoop server fuel (data.meta.getD ⟨none, none⟩).next_cursor
          (acc ++ data.results.getD []) (pages + 1)) := by
  refine ⟨?_, ?_, ?_⟩
  · have hsplit : fuel + 4 = (((fuel + 1) + 1) + 1) + 1 := by omega
    unfold fetch_all_works_data
    rw [hsplit]
    have s1 : fetchLoop server (((fuel + 1) + 1) + 1 + 1) (some "*") [] 0 =
        fetchLoop server (((fuel + 1) + 1) + 1) (some "tok1") r1 1 := by
      simpa using fetchLoop_step_ok server (((fuel + 1) + 1) + 1) (some "*")
        [] 0 ⟨some r1, some ⟨n1, some "tok1"⟩⟩ rfl h1
    have s2 : fetchLoop server (((fuel + 1) + 1) + 1) (some "tok1") r1 1 =
        fetchLoop server ((fuel + 1) + 1) (some "tok2") (r1 ++ r2) 2 := by
      simpa using fetchLoop_step_ok server ((fuel + 1) + 1) (some "tok1")
        r1 1 ⟨some r2, some ⟨n2, some "tok2"⟩⟩ rfl h2
    have s3 : fetchLoop server ((fuel + 1) + 1) (some "tok2") (r1 ++ r2) 2 =
        fetchLoop server (fuel + 1) none (r1 ++ r2 ++ r3) 3 := by
      simpa using fetchLoop_step_ok server (fuel + 1) (some "tok2")
        (r1 ++ r2) 2 ⟨some r3, some ⟨n3, none⟩⟩ rfl h3
    rw [s1, s2, s3, fetchLoop_stop server fuel none _ _ rfl]
  · intro cursor acc pages hfalse
    exact fetchLoop_stop server fuel cursor acc pages hfalse
  · intro cursor acc pages data htrue hresp
    exact fetchLoop_step_ok server fuel cursor acc pages data htrue hresp

theorem fetch_all_works_three_pages_witness :
    fetch_all_works_data
      (fun c _ =>
        if c = "*" then .ok ⟨some [⟨some "a", none, none, none, none⟩], some ⟨some 3, some "tok1"⟩⟩
        else if c = "tok1" then .ok ⟨some [⟨some "b", none, none, none, none⟩], some ⟨none, some "tok2"⟩⟩
        else if c = "tok2" then .ok ⟨some [⟨some "c", none, none, none, none⟩], some ⟨none, none⟩⟩
        else .httpError 500)
      4 =
    some (.success
      ([⟨some "a", none, none, none, none⟩] ++ [⟨some "b", none, none, none, none⟩] ++
        [⟨some "c", none, none, none, none⟩]) 3) :=
  (fetch_all_works_three_pages _ _ _ _ (some 3) none none 0 rfl rfl rfl).1

/-- C8: when a page of the cursor crawl arrives as a 2xx body that lacks
the `meta` key entirely (so no next token is derivable), the crawl issues
no further request: it returns the records accumulated so far plus that
page's records, with exactly one more page request counted. -/
theorem fetch_stops_on_malformed_page (server : String → Nat → HttpResponse)
    (fuel : Nat) (cursor : Option String) (acc results : List RawWork)
    (pages : Nat) (htrue : cursorTruthy cursor = true)
    (hresp : server (cursor.getD "") 0 = .ok ⟨some results, none⟩) :
    fetchLoop server (fuel + 2) cursor acc pages =
      some (.success (acc ++ results) (pages + 1)) := by
  have hsplit : fuel + 2 = (fuel + 1) + 1 := by omega
  rw [hsplit]
  have s1 := fetchLoop_step_ok server (fuel + 1) cursor acc pages
    ⟨some results, none⟩ htrue hresp
  simp only [s1]
  simpa using fetchLoop_stop server fuel none (acc ++ results) (pages + 1) rfl

theorem fetch_stops_on_malformed_page_witness :
    fetchLoop (fun _ _ => .ok ⟨some [⟨some "a", none, none, none, none⟩], none⟩)
      2 (some "*") [] 0 =
      some (.success ([] ++ [⟨some "a", none, none, none, none⟩]) 1) :=
  fetch_stops_on_malformed_page _ 0 (some "*") [] _ 0 rfl rfl

/-- C5 (code evaluated at the failing input): on the record with every
optional field absent the normalizer does return a complete row without
failing, but the `Concept_ID` column receives `"A"` — the default id
`"N/A"` is passed through `split('/')[-1]`, which keeps only `"A"` —
contradicting the defined default `"N/A"`. -/
theorem normalizer_all_missing_eval :
    processWork ⟨none, none, none, none, none⟩ =
      ⟨"A", "N/A", "N/A", "N/A", "N/A", 0, "N/A"⟩ ∧ ("A" : String) ≠ "N/A" := by
  exact ⟨rfl, by decide⟩

/-- C6 (code evaluated at the failing input): on a record with explicitly
empty `concepts` and `authorships` the normalizer yields
`Primary_Author = "N/A"`, `Affiliation_Institution = "N/A"` and
`Concept_Name = "N/A"` as claimed, but `Concept_ID = "A"` (the stripped
default), not the claimed `"N/A"`. -/
theorem normalizer_empty_sequences_eval :
    processWork ⟨some "T", some "2021-01-01", some 3, some [], some []⟩ =
      ⟨"A", "N/A", "T", "N/A", "N/A", 3, "2021-01-01"⟩ ∧
    ("A" : String) ≠ "N/A" := by
  exact ⟨rfl, by decide⟩

/-- C7: a record whose first concept id is
`"https://openalex.org/C12345"` normalizes to `Concept_ID = "C12345"`,
and the prefix-stripping operation is idempotent on every string. -/
theorem concept_id_prefix_strip (work : RawWork) (c : Concept)
    (cs : List Concept) (hc : work.concepts = some (c :: cs))
    (hid : c.id = some "https://openalex.org/C12345") :
    (processWork work).Concept_ID = "C12345" ∧
    ∀ s : String, stripUrl (stripUrl s) = stripUrl s := by
  constructor
  · have hpr : (processWork work).Concept_ID =
        stripUrl (((work.concepts.getD []).headD
          ⟨some "N/A", some "N/A"⟩).id.getD "N/A") := rfl
    rw [hpr, hc]
    simp only [Option.getD_some, List.headD_cons, hid]
    rfl
  · exact stripUrl_idem

theorem concept_id_prefix_strip_witness :
    (processWork ⟨none, none, none,
        some [⟨some "https://openalex.org/C12345", none⟩], none⟩).Concept_ID =
      "C12345" ∧ stripUrl (stripUrl "a/b") = stripUrl "a/b" :=
  ⟨(concept_id_prefix_strip _ ⟨some "https://openalex.org/C12345", none⟩ []
      rfl rfl).1,
    (concept_id_prefix_strip ⟨none, none, none,
        some [⟨some "https://openalex.org/C12345", none⟩], none⟩
      ⟨some "https://openalex.org/C12345", none⟩ [] rfl rfl).2 "a/b"⟩

/-- C4 (counterexample): a run whose crawl succeeds with zero records
writes no output file yet exits with status 0 — a third observable
outcome outside the claimed success/total-failure dichotomy. -/
theorem main_dichotomy_counterexample :
    main emptyResultsServer 2 = some ⟨none, 0⟩ ∧
    ¬ ClaimedDichotomy ⟨none, 0⟩ := by
  constructor
  · rfl
  · simp [ClaimedDichotomy]

/-- C4 (amended): every run that terminates observes the claimed
dichotomy — table written with exit 0, or nothing written with non-zero
exit — except for the run whose crawl succeeds with an empty record
list, which writes nothing and exits 0; and whenever any page fetch
returns the fatal sentinel, the run exits with status 1 with no file
written. -/
theorem main_outcomes (server : String → Nat → HttpResponse) (fuel : Nat)
    (res : RunResult) (h : main server fuel = some res) :
    (ClaimedDichotomy res ∨
      (res = ⟨none, 0⟩ ∧ ∃ pages,
        fetch_all_works_data server fuel = some (.success [] pages))) ∧
    (∀ pages, fetch_all_works_data server fuel = some (.fatal pages) →
      res = ⟨none, 1⟩) := by
  constructor
  · unfold main at h
    rcases hf : fetch_all_works_data server fuel with _ | oc
    · rw [hf] at h
      cases h
    · rw [hf] at h
      cases oc with
      | fatal p =>
        dsimp only at h
        left
        cases h
        right
        exact ⟨rfl, by decide⟩
      | success works p =>
        dsimp only at h
        by_cases hw : works.isEmpty
        · right
          rw [if_pos hw] at h
          cases h
          have hw' : works = [] := List.isEmpty_iff.mp hw
          subst hw'
          exact ⟨rfl, p, rfl⟩
        · left
          rw [if_neg hw] at h
          cases h
          exact Or.inl ⟨⟨_, rfl⟩, rfl⟩
  · intro pages hfatal
    unfold main at h
    rw [hfatal] at h
    dsimp only at h
    cases h
    rfl

theorem main_outcomes_witness :
    ClaimedDichotomy ⟨none, 1⟩ ∨
      ((⟨none, 1⟩ : RunResult) = ⟨none, 0⟩ ∧ ∃ pages,
        fetch_all_works_data (fun _ _ => .httpError 403) 1 =
          some (.success [] pages)) :=
  (main_outcomes (fun _ _ => .httpError 403) 1 ⟨none, 1⟩ rfl).1

/-- C10: whenever a run writes the output table, the written rows are the
normalized rows sorted by the coerced publication date descending with
ties broken by citation count descending (unparseable dates coerced to
missing and placed last), and they are a permutation of the normalized
rows. -/
theorem main_writes_sorted_table (server : String → Nat → HttpResponse)
    (fuel : Nat) (works : List RawWork) (pages : Nat)
    (hfetch : fetch_all_works_data server fuel = some (.success works pages))
    (hne : works ≠ []) :
    main server fuel =
      some ⟨some (sortTable (process_and_structure_data works)), 0⟩ ∧
    List.Pairwise (fun a b => rowLE a b = true)
      (sortTable (process_and_structure_data works)) ∧
    (sortTable (process_and_structure_data works)).Perm
      (process_and_structure_data works) := by
  refine ⟨?_, ?_, ?_⟩
  · unfold main
    rw [hfetch]
    dsimp only
    rw [if_neg (fun hcontra => hne (List.isEmpty_iff.mp hcontra))]
  · exact List.sorted_mergeSort rowLE_trans rowLE_total _
  · exact List.mergeSort_perm _ _

theorem main_writes_sorted_table_witness :
    main singlePageServer 2 =
      some ⟨some (sortTable (process_and_structure_data
        [⟨some "T", some "2021-01-01", some 3, none, none⟩])), 0⟩ :=
  (main_writes_sorted_table singlePageServer 2
    [⟨some "T", some "2021-01-01", some 3, none, none⟩] 1 rfl (by decide)).1

end Eda2
